import Mathlib

/-
Verification development for the `iol-client` repository (src/iol_client.py).

The client is shallowly embedded as pure Lean functions over an explicit
state.  Python dictionaries holding JSON data are modelled as association
lists with insertion-order semantics (`JDict`); the HTTP transport is a
scripted list of responses consumed in order (the spec's "transport stub");
Python exceptions are modelled with `Except PyErr`; every outbound network
call is recorded in an event log so that "exactly one refresh / exactly one
retry" style properties can be stated as facts about the log.

One load-bearing detail of the source is modelled exactly: the active
`IOLClient.__init__` (src/iol_client.py lines 54-69) never assigns
`self.tokens` (the earlier, commented-out revision at lines 41-52 had
`self.tokens = self._cargar_tokens()`).  Reading an unassigned attribute in
Python raises `AttributeError`, which is distinct from the attribute holding
`None`.  The in-memory token field is therefore modelled as
`Option (Option JDict)`: `none` = attribute never assigned (access raises
`AttributeError`), `some none` = Python `None`, `some (some d)` = a dict.

Timestamps (`time.time()`) are modelled as an integer clock carried in the
state; within one operation the clock is constant, matching the spec's
simulated-time view.
-/

namespace IOL

/-- JSON scalar values as they occur in the client's token dictionaries and
payloads: strings and (integer-modelled) numbers. -/
inductive JVal where
| jstr (s : String) : JVal
| jnum (n : Int) : JVal
deriving DecidableEq

/-- A Python dict holding JSON data, as an insertion-ordered association
list with unique keys maintained by `setKey`. -/
abbrev JDict := List (String × JVal)

/-- Python `d.get(k)` / `d[k]` lookup: first binding of the key. -/
def jget : JDict → String → Option JVal
| [], _ => none
| (k, v) :: rest, key => if k = key then some v else jget rest key

/-- Python `d[k] = v`: replace in place if the key is present, else append. -/
def setKey : JDict → String → JVal → JDict
| [], key, v => [(key, v)]
| (k, w) :: rest, key, v =>
  if k = key then (k, v) :: rest else (k, w) :: setKey rest key v

/-- Python exceptions that can escape the client's operations. -/
inductive PyErr where
| attributeErr (name : String) : PyErr
| valueErr (msg : String) : PyErr
| runtimeErr (msg : String) : PyErr
| httpErr (status : Nat) (text : String) : PyErr
| keyErr (key : String) : PyErr
| typeErr : PyErr
| jsonDecodeErr : PyErr
| stubExhausted : PyErr
deriving DecidableEq

/-- A stubbed HTTP response: status code, the response's JSON body (the stub
provides it already parsed, mirroring `response.json()`), and the raw text
used in error reports (`response.text`). -/
structure HttpResponse where
  status : Nat
  jsonBody : JDict
  text : String
deriving DecidableEq

/-- An outbound network call, as recorded in the event log. -/
inductive Ev where
| tokenReq (data : JDict) : Ev
| resGet (url : String) (auth : String) (params : Option JDict) : Ev
| resPost (url : String) (auth : String) (body : Option JDict) : Ev
deriving DecidableEq

/-- The in-memory fields of an `IOLClient` instance plus the token file's
content (`tokens.json`, as the raw text the store holds) and the clock. -/
structure ClientState where
  apiUrl : String
  username : String
  password : String
  now : Int
  tokens : Option (Option JDict)
  file : Option String
deriving DecidableEq

/-- Full execution state: the client, the remaining scripted transport
responses, and the log of network calls made so far. -/
structure St where
  client : ClientState
  script : List HttpResponse
  log : List Ev
deriving DecidableEq

instance {ε α : Type} [DecidableEq ε] [DecidableEq α] : DecidableEq (Except ε α) := fun x y =>
  match x, y with
  | Except.ok a, Except.ok b =>
    if h : a = b then isTrue (by rw [h]) else isFalse (by intro hh; cases hh; exact h rfl)
  | Except.error a, Except.error b =>
    if h : a = b then isTrue (by rw [h]) else isFalse (by intro hh; cases hh; exact h rfl)
  | Except.ok _, Except.error _ => isFalse (by intro hh; cases hh)
  | Except.error _, Except.ok _ => isFalse (by intro hh; cases hh)

/-- Message of the `RuntimeError` raised by `refresh_token` (line 138). -/
def noRefreshMsg : String := "No hay token para refrescar. Ejecutá authenticate() primero."

/-- Perform one network call: log the event and consume the next scripted
response.  An exhausted script is a model artifact (`stubExhausted`);
theorems always supply enough responses. -/
def sendEv (e : Ev) (s : St) : Except PyErr HttpResponse × St :=
  let s1 : St := { s with log := s.log ++ [e] }
  match s1.script with
  | [] => (Except.error PyErr.stubExhausted, s1)
  | r :: rest => (Except.ok r, { s1 with script := rest })

/-- Model of `response.raise_for_status()` from the `requests` library: raises
`HTTPError` exactly for 4xx and 5xx status codes. -/
def raiseForStatus (r : HttpResponse) : Except PyErr Unit :=
  if 400 ≤ r.status ∧ r.status < 600 then Except.error (PyErr.httpErr r.status r.text)
  else Except.ok ()

/-- Decimal digit characters of a natural number, most significant first,
with explicit fuel so that the definition reduces by kernel computation
(`fuel ≥ n` always suffices). -/
def natCharsAux : Nat → Nat → List Char
| 0, _ => []
| fuel + 1, n =>
  if n < 10 then [Char.ofNat (48 + n)]
  else natCharsAux fuel (n / 10) ++ [Char.ofNat (48 + n % 10)]

/-- Decimal digit characters of a natural number, most significant first
(the digits of Python's `str`/`json` rendering). -/
def natChars (n : Nat) : List Char := natCharsAux (n + 1) n

/-- Decimal rendering of an integer, exactly as Python prints it. -/
def intStr : Int → String
| Int.ofNat n => String.mk (natChars n)
| Int.negSucc n => "-" ++ String.mk (natChars (n + 1))

/-- Serialize one JSON scalar the way `json.dump` prints it (strings are
emitted without escape processing; round-trip theorems therefore restrict
to strings that `json.dump` would emit verbatim). -/
def dumpJVal : JVal → String
| JVal.jstr s => "\"" ++ s ++ "\""
| JVal.jnum n => intStr n

/-- Entries of `json.dump(d, indent=2)` after the opening line: each entry
indented two spaces, separated by commas, closed by the brace line. -/
def dumpEntries : JDict → String
| [] => "\n\x7d"
| (k, v) :: rest =>
  "\"" ++ k ++ "\": " ++ dumpJVal v ++
    (match rest with
     | [] => "\n\x7d"
     | _ :: _ => ",\n  " ++ dumpEntries rest)

/-- Model of `json.dump(d, f, indent=2)`: the exact text written to `tokens.json`. -/
def dumpJDict : JDict → String
| [] => "\x7b\x7d"
| kv :: tl => "\x7b\n  " ++ dumpEntries (kv :: tl)

/-- JSON insignificant whitespace. -/
def isWs (c : Char) : Bool := c == ' ' || c == '\n' || c == '\t' || c == '\r'

/-- Skip insignificant whitespace (as `json.load` does between tokens). -/
def skipWs (cs : List Char) : List Char := cs.dropWhile isWs

/-- The two brace characters, kept symbolic. -/
def lbrace : Char := Char.ofNat 123

/-- Closing brace character. -/
def rbrace : Char := Char.ofNat 125

/-- Parse the remainder of a JSON string after its opening quote: the
characters up to the closing quote, and the rest of the input. -/
def parseStrAux : List Char → Option (List Char × List Char)
| [] => none
| c :: rest =>
  if c = '"' then some ([], rest)
  else (parseStrAux rest).map (fun p => (c :: p.1, p.2))

/-- Parse a run of decimal digits, accumulating their value. -/
def parseNatAux : List Char → Nat → Nat × List Char
| [], acc => (acc, [])
| c :: rest, acc =>
  if c.isDigit then parseNatAux rest (acc * 10 + (c.toNat - 48)) else (acc, c :: rest)

/-- Parse one JSON scalar (string or integer). -/
def parseJVal : List Char → Option (JVal × List Char)
| [] => none
| c :: rest =>
  if c = '"' then (parseStrAux rest).map (fun p => (JVal.jstr (String.mk p.1), p.2))
  else if c = '-' then
    match rest with
    | d :: _ =>
      if d.isDigit then
        let p := parseNatAux rest 0
        some (JVal.jnum (-(p.1 : Int)), p.2)
      else none
    | [] => none
  else if c.isDigit then
    let p := parseNatAux (c :: rest) 0
    some (JVal.jnum (p.1 : Int), p.2)
  else none

/-- Parse the entries of a JSON object, positioned at the opening quote of
the first key; fueled for termination (fuel bounds the entry count). -/
def parseEntriesAux : Nat → List Char → Option (JDict × List Char)
| 0, _ => none
| fuel + 1, cs =>
  match cs with
  | [] => none
  | c :: rest =>
    if c = '"' then
      match parseStrAux rest with
      | none => none
      | some (kcs, r1) =>
        match skipWs r1 with
        | [] => none
        | c3 :: r2 =>
          if c3 = ':' then
            match parseJVal (skipWs r2) with
            | none => none
            | some (v, r3) =>
              match skipWs r3 with
              | [] => none
              | c5 :: r5 =>
                if c5 = ',' then
                  (parseEntriesAux fuel (skipWs r5)).map
                    (fun p => ((String.mk kcs, v) :: p.1, p.2))
                else if c5 = rbrace then some ([(String.mk kcs, v)], r5)
                else none
          else none
    else none

/-- Parse a flat JSON object from text, requiring only whitespace after it
(`json.load` rejects trailing data).  Covers the object shapes the client
ever writes to `tokens.json`. -/
def parseJson (text : String) : Option JDict :=
  match skipWs text.data with
  | [] => none
  | c :: rest =>
    if c = lbrace then
      match skipWs rest with
      | [] => none
      | c2 :: r2 =>
        if c2 = rbrace then (if (skipWs r2).isEmpty then some [] else none)
        else
          match parseEntriesAux (c2 :: r2).length (c2 :: r2) with
          | some (d, rem) => if (skipWs rem).isEmpty then some d else none
          | none => none
    else none

/-- Ten to the power of the digit count of `n` (same fueled recursion as
`natCharsAux`); used to state the digit-parsing round trip. -/
def pow10Aux : Nat → Nat → Nat
| 0, _ => 1
| fuel + 1, n => if n < 10 then 10 else pow10Aux fuel (n / 10) * 10

/-- Ten to the power of the digit count of `n`. -/
def pow10 (n : Nat) : Nat := pow10Aux (n + 1) n

/-- Whether a character list does not begin with a decimal digit (the
delimiter condition after a serialized number). -/
def headNotDigit : List Char → Bool
| [] => true
| c :: _ => !c.isDigit

/-- Model of `_cargar_tokens` (lines 92-100): return the parsed file content when
the file exists, `None` when it does not; an unparseable file raises
(`json.JSONDecodeError`, uncaught by the client). -/
def loadTokens : Option String → Except PyErr (Option JDict)
| none => Except.ok none
| some text =>
  match parseJson text with
  | some d => Except.ok (some d)
  | none => Except.error PyErr.jsonDecodeErr

/-- Characters that `json.dump` (with its default `ensure_ascii=True`)
emits verbatim inside a string literal: printable ASCII other than the
quote and the backslash.  For strings made of these, the escape-free
`dumpJVal` above coincides with `json.dump`. -/
def goodChar (c : Char) : Bool := 32 ≤ c.toNat && c.toNat < 127 && !(c = '"') && !(c = '\\')

/-- A string `json.dump` emits verbatim. -/
def goodStr (s : String) : Bool := s.data.all goodChar

/-- Scalars whose serialization is escape-free. -/
def goodVal : JVal → Bool
| JVal.jstr s => goodStr s
| JVal.jnum _ => true

/-- Dicts whose serialization is escape-free: every key and value plain. -/
def goodDict (d : JDict) : Bool := d.all (fun kv => goodStr kv.1 && goodVal kv.2)

/-- Model of `_guardar_tokens` (lines 102-107): write the tokens to the file iff
`self.tokens` is truthy (a non-empty dict); reading the never-assigned
attribute raises `AttributeError`. -/
def guardarTokens (s : St) : Except PyErr Unit × St :=
  match s.client.tokens with
  | none => (Except.error (PyErr.attributeErr "tokens"), s)
  | some none => (Except.ok (), s)
  | some (some d) =>
    if d = [] then (Except.ok (), s)
    else (Except.ok (), { s with client := { s.client with file := some (dumpJDict d) } })

/-- Shared tail of `authenticate` (lines 129-131) and `refresh_token`
(lines 149-151): `self.tokens = response.json()`, then
`self.tokens["expires_at"] = time.time() + self.tokens["expires_in"]`,
then `self._guardar_tokens()`.  The raw body is assigned before the
`expires_in` lookup, so a body without a numeric `expires_in` leaves the
raw body in memory and raises (`KeyError` / `TypeError`). -/
def storeTokenResponse (r : HttpResponse) (s : St) : Except PyErr JDict × St :=
  let s1 : St := { s with client := { s.client with tokens := some (some r.jsonBody) } }
  match jget r.jsonBody "expires_in" with
  | some (JVal.jnum e) =>
    let d : JDict := setKey r.jsonBody "expires_at" (JVal.jnum (s1.client.now + e))
    let s2 : St := { s1 with client := { s1.client with tokens := some (some d) } }
    (match guardarTokens s2 with
     | (Except.ok _, s3) => (Except.ok d, s3)
     | (Except.error e2, s3) => (Except.error e2, s3))
  | some (JVal.jstr _) => (Except.error PyErr.typeErr, s1)
  | none => (Except.error (PyErr.keyErr "expires_in"), s1)

/-- Form data of the password grant (lines 113-117). -/
def passwordPayload (c : ClientState) : JDict :=
  [("username", JVal.jstr c.username),
   ("password", JVal.jstr c.password),
   ("grant_type", JVal.jstr "password")]

/-- Form data of the refresh grant (lines 141-144). -/
def refreshPayload (rt : JVal) : JDict :=
  [("refresh_token", rt), ("grant_type", JVal.jstr "refresh_token")]

/-- Model of `authenticate` (lines 109-133): POST the password grant to the token
endpoint, `raise_for_status`, then store + persist the new token set.  The
`except requests.HTTPError ... raise` clause only logs and re-raises, so
the error propagates unchanged. -/
def authenticate (s : St) : Except PyErr JDict × St :=
  match sendEv (Ev.tokenReq (passwordPayload s.client)) s with
  | (Except.error e, s1) => (Except.error e, s1)
  | (Except.ok r, s1) =>
    match raiseForStatus r with
    | Except.error e => (Except.error e, s1)
    | Except.ok _ => storeTokenResponse r s1

/-- Model of `refresh_token` (lines 135-153): `RuntimeError` when `self.tokens` is
falsy or lacks `"refresh_token"` (`AttributeError` when the attribute was
never assigned); otherwise POST the refresh grant, `raise_for_status`,
store + persist. -/
def refreshToken (s : St) : Except PyErr JDict × St :=
  match s.client.tokens with
  | none => (Except.error (PyErr.attributeErr "tokens"), s)
  | some none => (Except.error (PyErr.runtimeErr noRefreshMsg), s)
  | some (some d) =>
    if d = [] then (Except.error (PyErr.runtimeErr noRefreshMsg), s)
    else
      match jget d "refresh_token" with
      | none => (Except.error (PyErr.runtimeErr noRefreshMsg), s)
      | some rt =>
        match sendEv (Ev.tokenReq (refreshPayload rt)) s with
        | (Except.error e, s1) => (Except.error e, s1)
        | (Except.ok r, s1) =>
          match raiseForStatus r with
          | Except.error e => (Except.error e, s1)
          | Except.ok _ => storeTokenResponse r s1

/-- Model of `token_expired` (lines 155-160):
`not self.tokens or time.time() >= self.tokens.get("expires_at", 0)`.
A pure, network-free check (its type carries no transport). -/
def tokenExpired (s : St) : Except PyErr Bool :=
  match s.client.tokens with
  | none => Except.error (PyErr.attributeErr "tokens")
  | some none => Except.ok true
  | some (some d) =>
    if d = [] then Except.ok true
    else
      match jget d "expires_at" with
      | some (JVal.jnum ea) => Except.ok (decide (s.client.now ≥ ea))
      | some (JVal.jstr _) => Except.error PyErr.typeErr
      | none => Except.ok (decide (s.client.now ≥ 0))

/-- Python subscript `self.tokens[key]`: `AttributeError` when the
attribute was never assigned, `TypeError` when it is `None`, `KeyError`
when the key is missing. -/
def subscriptTokens (s : St) (key : String) : Except PyErr JVal :=
  match s.client.tokens with
  | none => Except.error (PyErr.attributeErr "tokens")
  | some none => Except.error PyErr.typeErr
  | some (some d) =>
    match jget d key with
    | some v => Except.ok v
    | none => Except.error (PyErr.keyErr key)

/-- Model of `get_access_token` (lines 162-169): if expired, refresh when
`self.tokens and "refresh_token" in self.tokens`, else authenticate;
then return `self.tokens["access_token"]`. -/
def getAccessToken (s : St) : Except PyErr JVal × St :=
  match tokenExpired s with
  | Except.error e => (Except.error e, s)
  | Except.ok true =>
    let hasRefresh : Bool :=
      match s.client.tokens with
      | some (some d) => !d.isEmpty && (jget d "refresh_token").isSome
      | _ => false
    (match (if hasRefresh then refreshToken s else authenticate s) with
     | (Except.error e, s1) => (Except.error e, s1)
     | (Except.ok _, s1) =>
       match subscriptTokens s1 "access_token" with
       | Except.ok v => (Except.ok v, s1)
       | Except.error e => (Except.error e, s1))
  | Except.ok false =>
    match subscriptTokens s "access_token" with
    | Except.ok v => (Except.ok v, s)
    | Except.error e => (Except.error e, s)

/-- Rendering of a JSON scalar inside an f-string (`f"Bearer {...}"`). -/
def renderJVal : JVal → String
| JVal.jstr s => s
| JVal.jnum n => intStr n

/-- Model of `_auth_headers` (lines 174-175): the `Authorization` header value. -/
def authHeaders (s : St) : Except PyErr String × St :=
  match getAccessToken s with
  | (Except.ok v, s1) => (Except.ok ("Bearer " ++ renderJVal v), s1)
  | (Except.error e, s1) => (Except.error e, s1)

/-- Python `endpoint.lstrip('/')`: drop every leading slash. -/
def lstripSlash (s : String) : String := String.mk (s.data.dropWhile (fun c => c == '/'))

/-- Model of the URL join `f"\x7bself.api_url\x7d/\x7bendpoint.lstrip('/')\x7d"` (lines 179 and 197). -/
def buildUrl (base endpoint : String) : String := base ++ "/" ++ lstripSlash endpoint

/-- Model of `get` (lines 177-194): authenticated GET with the single 401-triggered
refresh-and-retry; `raise_for_status` on the final response; the `except
requests.RequestException ... raise` clause re-raises unchanged. -/
def getOp (endpoint : String) (params : Option JDict) (s : St) : Except PyErr JDict × St :=
  let url := buildUrl s.client.apiUrl endpoint
  match authHeaders s with
  | (Except.error e, s1) => (Except.error e, s1)
  | (Except.ok hdr, s1) =>
    match sendEv (Ev.resGet url hdr params) s1 with
    | (Except.error e, s2) => (Except.error e, s2)
    | (Except.ok r, s2) =>
      if r.status = 401 then
        match refreshToken s2 with
        | (Except.error e, s3) => (Except.error e, s3)
        | (Except.ok _, s3) =>
          match authHeaders s3 with
          | (Except.error e, s4) => (Except.error e, s4)
          | (Except.ok hdr2, s4) =>
            match sendEv (Ev.resGet url hdr2 params) s4 with
            | (Except.error e, s5) => (Except.error e, s5)
            | (Except.ok r2, s5) =>
              match raiseForStatus r2 with
              | Except.error e => (Except.error e, s5)
              | Except.ok _ => (Except.ok r2.jsonBody, s5)
      else
        match raiseForStatus r with
        | Except.error e => (Except.error e, s2)
        | Except.ok _ => (Except.ok r.jsonBody, s2)

/-- Model of `post` (lines 196-212): same shape as `get` with a POST body. -/
def postOp (endpoint : String) (body : Option JDict) (s : St) : Except PyErr JDict × St :=
  let url := buildUrl s.client.apiUrl endpoint
  match authHeaders s with
  | (Except.error e, s1) => (Except.error e, s1)
  | (Except.ok hdr, s1) =>
    match sendEv (Ev.resPost url hdr body) s1 with
    | (Except.error e, s2) => (Except.error e, s2)
    | (Except.ok r, s2) =>
      if r.status = 401 then
        match refreshToken s2 with
        | (Except.error e, s3) => (Except.error e, s3)
        | (Except.ok _, s3) =>
          match authHeaders s3 with
          | (Except.error e, s4) => (Except.error e, s4)
          | (Except.ok hdr2, s4) =>
            match sendEv (Ev.resPost url hdr2 body) s4 with
            | (Except.error e, s5) => (Except.error e, s5)
            | (Except.ok r2, s5) =>
              match raiseForStatus r2 with
              | Except.error e => (Except.error e, s5)
              | Except.ok _ => (Except.ok r2.jsonBody, s5)
      else
        match raiseForStatus r with
        | Except.error e => (Except.error e, s2)
        | Except.ok _ => (Except.ok r.jsonBody, s2)

/-- Model of `__init__` (lines 54-69): credential check then construction.  Note:
the active constructor does NOT call `_cargar_tokens` — `self.tokens` is
left unassigned (`tokens := none`); only the commented-out revision at
lines 41-52 loaded the token file.  Missing credentials are modelled as
the empty string (Python falsiness of `None`/`""`). -/
def initClient (apiUrl username password : String) (now : Int) (file : Option String) :
    Except PyErr ClientState :=
  if username = "" ∨ password = "" then
    Except.error (PyErr.valueErr "Faltan credenciales en el archivo .env o en los argumentos.")
  else
    Except.ok { apiUrl := apiUrl, username := username, password := password,
                now := now, tokens := none, file := file }

/-- Model of `__exit__` (lines 80-85): persist the tokens, return `False` (never
suppress).  An exception escaping `_guardar_tokens` escapes `__exit__`. -/
def exitStep (s : St) : Except PyErr Unit × St :=
  match guardarTokens s with
  | (Except.error e, s1) => (Except.error e, s1)
  | (Except.ok _, s1) => (Except.ok (), s1)

/-- Model of the `with IOLClient() as iol: ...` statement: run the body, then
`__exit__`.  If `__exit__` itself raises, that exception propagates
(replacing the body's); otherwise, since `__exit__` returns `False`, the
body's exception (if any) propagates. -/
def withClient {α : Type} (s : St) (body : St → Except PyErr α × St) : Except PyErr α × St :=
  let (r, s1) := body s
  match exitStep s1 with
  | (Except.error e2, s2) => (Except.error e2, s2)
  | (Except.ok _, s2) => (r, s2)

/-- A wire token-endpoint body as the spec's contract describes it
(`access_token`, `refresh_token`, `expires_in`, `token_type`). -/
def wireToken (a r : String) (e : Int) : JDict :=
  [("access_token", JVal.jstr a), ("refresh_token", JVal.jstr r),
   ("expires_in", JVal.jnum e), ("token_type", JVal.jstr "bearer")]

/-- A stored token set: a wire body plus the locally derived `expires_at`. -/
def storedToken (a r : String) (e ea : Int) : JDict :=
  wireToken a r e ++ [("expires_at", JVal.jnum ea)]

/-- A concrete client used by the concrete (counter)example theorems. -/
def sampleClient (tokens : Option (Option JDict)) (file : Option String) : ClientState :=
  { apiUrl := "https://api.invertironline.com", username := "user", password := "pass",
    now := 1000, tokens := tokens, file := file }

/-- Concrete execution state around `sampleClient`. -/
def sampleSt (tokens : Option (Option JDict)) (file : Option String)
    (scr : List HttpResponse) : St :=
  { client := sampleClient tokens file, script := scr, log := [] }

/-- A valid, unexpired stored token for `sampleClient` (`now = 1000`). -/
def liveToken : JDict := storedToken "A0" "R0" 600 2000

/-- A sample resource payload. -/
def samplePayload : JDict := [("p", JVal.jnum 7)]

/-- A transport script for a happy path: token grant then resource 200. -/
def happyScript : List HttpResponse :=
  [⟨200, wireToken "A1" "R1" 600, "ok"⟩, ⟨200, samplePayload, "ok"⟩]

/-- A token dict holding an access token but no refresh token. -/
def noRefreshDict : JDict := [("access_token", JVal.jstr "A0")]

/-- The exact text `_guardar_tokens` writes for `liveToken`. -/
def persistedText : String := dumpJDict liveToken

/-- A transport script consisting of one successful token grant. -/
def grantScript : List HttpResponse := [⟨200, wireToken "A1" "R1" 600, "ok"⟩]

/-- The state after `authenticate` on `sampleSt (some none) none grantScript`:
tokens replaced by the granted set with `expires_at = 1000 + 600`, dump
persisted, grant consumed, one password-grant call logged. -/
def authedSt : St :=
  { client := { sampleClient (some none) none with
      tokens := some (some (storedToken "A1" "R1" 600 1600)),
      file := some (dumpJDict (storedToken "A1" "R1" 600 1600)) },
    script := [],
    log := [Ev.tokenReq (passwordPayload (sampleClient (some none) none))] }

/-- The state after `refresh_token` on
`sampleSt (some (some liveToken)) none grantScript`. -/
def refreshedSt : St :=
  { client := { sampleClient (some (some liveToken)) none with
      tokens := some (some (storedToken "A1" "R1" 600 1600)),
      file := some (dumpJDict (storedToken "A1" "R1" 600 1600)) },
    script := [],
    log := [Ev.tokenReq (refreshPayload (JVal.jstr "R0"))] }

/-- A stored token whose `expires_at` (900) is behind `sampleClient`'s
clock (1000). -/
def expiredToken : JDict := storedToken "A0" "R0" 600 900

/-- A token-endpoint script answering with a non-2xx, non-4xx/5xx status
(304) that still carries a token body. -/
def redirScript : List HttpResponse := [⟨304, wireToken "A2" "R2" 600, "redirect"⟩]

/-- Script: resource 401, refresh grant 200, retried resource 304 with a
JSON body. -/
def retry304Script : List HttpResponse :=
  [⟨401, [], "unauthorized"⟩, ⟨200, wireToken "A2" "R2" 600, "ok"⟩,
   ⟨304, samplePayload, "not modified"⟩]

/-- Script: resource 401, refresh grant with `expires_in = 0`, a second
refresh grant, retried resource 200. -/
def doubleRefreshScript : List HttpResponse :=
  [⟨401, [], "unauthorized"⟩, ⟨200, wireToken "A2" "R2" 0, "ok"⟩,
   ⟨200, wireToken "A3" "R3" 600, "ok"⟩, ⟨200, samplePayload, "ok"⟩]

/-- The state after a 401-triggered refresh-and-retry round: the refreshed
token body `rb` (with locally computed `expires_at`) held and persisted,
the three scripted responses consumed, and exactly the original request,
one refresh-grant token request and one retry appended to the log. -/
def retriedSt (base un pw : String) (n : Int) (_fl : Option String) (lg : List Ev)
    (rb : JDict) (e2 : Int) (rest : List HttpResponse) (rt0 : JVal) (ev1 ev2 : Ev) : St :=
  { client :=
      { apiUrl := base, username := un, password := pw, now := n,
        tokens := some (some (setKey rb "expires_at" (JVal.jnum (n + e2)))),
        file := some (dumpJDict (setKey rb "expires_at" (JVal.jnum (n + e2)))) },
    script := rest,
    log := lg ++ [ev1, Ev.tokenReq (refreshPayload rt0), ev2] }

/-- A `with`-body that raises (`RuntimeError("boom")`). -/
def bodyBoom (s : St) : Except PyErr JDict × St := (Except.error (PyErr.runtimeErr "boom"), s)

/-- A `with`-body that returns a payload. -/
def bodyOk (s : St) : Except PyErr JDict × St := (Except.ok samplePayload, s)

theorem jget_setKey_self (d : JDict) (k : String) (v : JVal) : jget (setKey d k v) k = some v := by
  induction d with
  | nil => simp [setKey, jget]
  | cons kv rest ih =>
    obtain ⟨k1, v1⟩ := kv
    by_cases h : k1 = k
    · simp [setKey, jget, h]
    · simp [setKey, jget, h, ih]

theorem jget_setKey_ne (d : JDict) (k k' : String) (v : JVal) (h : k ≠ k') :
    jget (setKey d k v) k' = jget d k' := by
  induction d with
  | nil => simp [setKey, jget, h]
  | cons kv rest ih =>
    obtain ⟨k1, v1⟩ := kv
    by_cases h1 : k1 = k
    · subst h1
      simp [setKey, jget, h]
    · by_cases h2 : k1 = k'
      · simp [setKey, jget, h1, h2, Ne.symm h]
      · simp [setKey, jget, h1, h2, ih]

theorem setKey_ne_nil (d : JDict) (k : String) (v : JVal) : setKey d k v ≠ [] := by
  cases d with
  | nil => simp [setKey]
  | cons kv rest =>
    obtain ⟨k1, v1⟩ := kv
    by_cases h : k1 = k <;> simp [setKey, h]

theorem jget_some_ne_nil {d : JDict} {k : String} {v : JVal} (h : jget d k = some v) :
    d ≠ [] := by
  cases d with
  | nil => simp [jget] at h
  | cons kv rest => simp

/-- Success path of `authenticate`: a 2xx/3xx scripted response whose body
carries a numeric `expires_in` replaces the in-memory tokens with the body
plus the locally computed `expires_at`, persists the dump, consumes the
response and logs exactly one password-grant token request. -/
theorem authenticate_success (s : St) (st : Nat) (b : JDict) (tx : String)
    (rest : List HttpResponse) (e : Int)
    (hs : s.script = ⟨st, b, tx⟩ :: rest) (hst : st < 400)
    (he : jget b "expires_in" = some (JVal.jnum e)) :
    authenticate s =
      (Except.ok (setKey b "expires_at" (JVal.jnum (s.client.now + e))),
       { client := { s.client with
           tokens := some (some (setKey b "expires_at" (JVal.jnum (s.client.now + e)))),
           file := some (dumpJDict (setKey b "expires_at" (JVal.jnum (s.client.now + e)))) },
         script := rest,
         log := s.log ++ [Ev.tokenReq (passwordPayload s.client)] }) := by
  obtain ⟨⟨au, un, pw, nw, tk, fl⟩, scr, lg⟩ := s
  simp only at hs
  subst hs
  simp [authenticate, sendEv, raiseForStatus, storeTokenResponse, guardarTokens,
        show ¬(400 ≤ st ∧ st < 600) from by omega, he, setKey_ne_nil]

/-- Success path of `refresh_token`, under a refreshable in-memory token
set: same replacement, persistence and single logged refresh-grant call. -/
theorem refreshToken_success (s : St) (d0 : JDict) (rt : JVal) (st : Nat) (b : JDict)
    (tx : String) (rest : List HttpResponse) (e : Int)
    (htk : s.client.tokens = some (some d0)) (hrt : jget d0 "refresh_token" = some rt)
    (hs : s.script = ⟨st, b, tx⟩ :: rest) (hst : st < 400)
    (he : jget b "expires_in" = some (JVal.jnum e)) :
    refreshToken s =
      (Except.ok (setKey b "expires_at" (JVal.jnum (s.client.now + e))),
       { client := { s.client with
           tokens := some (some (setKey b "expires_at" (JVal.jnum (s.client.now + e)))),
           file := some (dumpJDict (setKey b "expires_at" (JVal.jnum (s.client.now + e)))) },
         script := rest,
         log := s.log ++ [Ev.tokenReq (refreshPayload rt)] }) := by
  obtain ⟨⟨au, un, pw, nw, tk, fl⟩, scr, lg⟩ := s
  simp only at hs htk
  subst hs
  subst htk
  simp [refreshToken, sendEv, raiseForStatus, storeTokenResponse, guardarTokens,
        show ¬(400 ≤ st ∧ st < 600) from by omega, he, hrt, setKey_ne_nil,
        jget_some_ne_nil hrt]

/-- C8: for every base URL and endpoint, requesting the endpoint with a
leading separator and without it yields the identical full request URL:
the leading slashes are stripped before joining. -/
theorem url_join_strips_leading_slash (base endpoint : String) :
    buildUrl base ("/" ++ endpoint) = buildUrl base endpoint := by
  have h : lstripSlash ("/" ++ endpoint) = lstripSlash endpoint := by
    simp [lstripSlash, String.data_append]
  simp [buildUrl, h]

/-- C2: on a freshly constructed client (no in-memory token set), `get`
does not authenticate and succeed as the spec claims: the active
constructor never initializes `self.tokens`, so the very first expiry
check raises `AttributeError` before any network call — the script is
untouched and the log stays empty. -/
theorem fresh_get_raises_attribute_error :
    initClient "https://api.invertironline.com" "user" "pass" 1000 none
      = Except.ok (sampleClient none none) ∧
    getOp "api/v2/estadocuenta" none (sampleSt none none happyScript)
      = (Except.error (PyErr.attributeErr "tokens"), sampleSt none none happyScript) ∧
    postOp "api/v2/operar/Comprar" none (sampleSt none none happyScript)
      = (Except.error (PyErr.attributeErr "tokens"), sampleSt none none happyScript) := by
  refine ⟨rfl, rfl, rfl⟩

/-- C3: construction does not load the persisted token set: with a valid
token file present, the constructed client's token attribute is unset
(`none`), not the Token Store's `load()` result, and not even the `None`
absent marker — `_cargar_tokens` is never invoked by the active
`__init__`. -/
theorem construction_does_not_load_tokens :
    initClient "https://api.invertironline.com" "user" "pass" 1000 (some persistedText)
      = Except.ok (sampleClient none (some persistedText)) ∧
    loadTokens (some persistedText) = Except.ok (some liveToken) ∧
    (sampleClient none (some persistedText)).tokens ≠ some (some liveToken) ∧
    (sampleClient none (some persistedText)).tokens ≠ some none := by
  refine ⟨rfl, by decide, by decide, by decide⟩

/-- C4: `refresh_token` with no token set in memory performs no network
call and leaves the state unchanged, but the error it fails with depends
on the state: on a freshly constructed client (token attribute never
assigned) it raises `AttributeError`, not the claimed
`NoRefreshableTokenError`; only with the attribute holding `None` (or a
dict lacking `"refresh_token"`) does it raise the claimed
`RuntimeError`. -/
theorem refresh_without_token_error_type :
    refreshToken (sampleSt none none happyScript)
      = (Except.error (PyErr.attributeErr "tokens"), sampleSt none none happyScript) ∧
    refreshToken (sampleSt (some none) none happyScript)
      = (Except.error (PyErr.runtimeErr noRefreshMsg), sampleSt (some none) none happyScript) ∧
    refreshToken (sampleSt (some (some noRefreshDict)) none happyScript)
      = (Except.error (PyErr.runtimeErr noRefreshMsg),
         sampleSt (some (some noRefreshDict)) none happyScript) := by
  refine ⟨rfl, rfl, rfl⟩

/-- C7: scoped exit. With a token set in memory, `__exit__` flushes the
tokens to the store and the body's exception (or value) propagates
unsuppressed.  But on a client whose enclosed work failed before any
successful authentication, the flush itself raises `AttributeError`
(unassigned `self.tokens`), which replaces the body's exception — the
body's exception does NOT propagate. -/
theorem exit_flush_and_propagation :
    withClient (sampleSt none none []) bodyBoom
      = (Except.error (PyErr.attributeErr "tokens"), sampleSt none none []) ∧
    withClient (sampleSt (some (some liveToken)) none []) bodyBoom
      = (Except.error (PyErr.runtimeErr "boom"),
         sampleSt (some (some liveToken)) (some (dumpJDict liveToken)) []) ∧
    withClient (sampleSt (some (some liveToken)) none []) bodyOk
      = (Except.ok samplePayload,
         sampleSt (some (some liveToken)) (some (dumpJDict liveToken)) []) := by
  refine ⟨rfl, rfl, rfl⟩

/-- C5: expiry correctness.  (a) after a successful `authenticate` whose
`expires_in` is positive, `token_expired` is false at the same clock;
(b) likewise after a successful `refresh_token`; (c) `token_expired` is
true when the client holds the `None` token marker; (d) once the clock
reaches `expires_at`, `token_expired` is true.  `tokenExpired` is a pure
function of the state — it touches neither script nor log, so the check
involves no network call. -/
theorem token_expired_correct :
    (∀ (s : St) (st : Nat) (b : JDict) (tx : String) (rest : List HttpResponse) (e : Int),
      s.script = ⟨st, b, tx⟩ :: rest → st < 400 →
      jget b "expires_in" = some (JVal.jnum e) → 0 < e →
      ∀ (d : JDict) (s2 : St), authenticate s = (Except.ok d, s2) →
        tokenExpired s2 = Except.ok false) ∧
    (∀ (s : St) (d0 : JDict) (rt : JVal) (st : Nat) (b : JDict) (tx : String)
        (rest : List HttpResponse) (e : Int),
      s.client.tokens = some (some d0) → jget d0 "refresh_token" = some rt →
      s.script = ⟨st, b, tx⟩ :: rest → st < 400 →
      jget b "expires_in" = some (JVal.jnum e) → 0 < e →
      ∀ (d : JDict) (s2 : St), refreshToken s = (Except.ok d, s2) →
        tokenExpired s2 = Except.ok false) ∧
    (∀ s : St, s.client.tokens = some none → tokenExpired s = Except.ok true) ∧
    (∀ (s : St) (d : JDict) (ea : Int), s.client.tokens = some (some d) →
      jget d "expires_at" = some (JVal.jnum ea) → ea ≤ s.client.now →
      tokenExpired s = Except.ok true) := by
  refine ⟨?_, ?_, ?_, ?_⟩
  · intro s st b tx rest e hs hst he hpos d s2 hauth
    rw [authenticate_success s st b tx rest e hs hst he] at hauth
    obtain ⟨hd, hs2⟩ := Prod.mk.injEq .. ▸ hauth
    cases hd
    subst hs2
    simp [tokenExpired, setKey_ne_nil, jget_setKey_self,
          show ¬(s.client.now ≥ s.client.now + e) from by omega]
  · intro s d0 rt st b tx rest e htk hrt hs hst he hpos d s2 href
    rw [refreshToken_success s d0 rt st b tx rest e htk hrt hs hst he] at href
    obtain ⟨hd, hs2⟩ := Prod.mk.injEq .. ▸ href
    cases hd
    subst hs2
    simp [tokenExpired, setKey_ne_nil, jget_setKey_self,
          show ¬(s.client.now ≥ s.client.now + e) from by omega]
  · intro s h
    simp [tokenExpired, h]
  · intro s d ea htk hget hle
    simp [tokenExpired, htk, jget_some_ne_nil hget, hget, show s.client.now ≥ ea from hle]

/-- Witness for C5 at concrete inputs: a fresh grant at clock 1000 with
`expires_in = 600` is not expired, for both the authenticate and refresh
paths; the `None` marker and a stored token with `expires_at = 900` are
expired. -/
theorem token_expired_correct_witness :
    tokenExpired authedSt = Except.ok false ∧
    tokenExpired refreshedSt = Except.ok false ∧
    tokenExpired (sampleSt (some none) none []) = Except.ok true ∧
    tokenExpired (sampleSt (some (some expiredToken)) none []) = Except.ok true :=
  ⟨token_expired_correct.1 (sampleSt (some none) none grantScript) 200
      (wireToken "A1" "R1" 600) "ok" [] 600 rfl (by omega) (by decide) (by omega)
      (storedToken "A1" "R1" 600 1600) authedSt (by decide),
   token_expired_correct.2.1 (sampleSt (some (some liveToken)) none grantScript)
      liveToken (JVal.jstr "R0") 200 (wireToken "A1" "R1" 600) "ok" [] 600 rfl
      (by decide) rfl (by omega) (by decide) (by omega)
      (storedToken "A1" "R1" 600 1600) refreshedSt (by decide),
   token_expired_correct.2.2.1 (sampleSt (some none) none []) rfl,
   token_expired_correct.2.2.2 (sampleSt (some (some expiredToken)) none [])
      expiredToken 900 rfl (by decide) (by decide)⟩

/-- C6: after every successful `authenticate` or `refresh_token`, the
stored token set's `expires_at` equals the local clock plus the
server-reported `expires_in`, the new set is what the client holds in
memory, and its dump is persisted to the token file before the operation
returns.  The final conjunct shows the local value overwrites any
`expires_at` present on the wire. -/
theorem expires_at_recomputed_and_saved :
    (∀ (s : St) (st : Nat) (b : JDict) (tx : String) (rest : List HttpResponse) (e : Int),
      s.script = ⟨st, b, tx⟩ :: rest → st < 400 →
      jget b "expires_in" = some (JVal.jnum e) →
      ∀ (d : JDict) (s2 : St), authenticate s = (Except.ok d, s2) →
        jget d "expires_at" = some (JVal.jnum (s.client.now + e)) ∧
        s2.client.tokens = some (some d) ∧
        s2.client.file = some (dumpJDict d)) ∧
    (∀ (s : St) (d0 : JDict) (rt : JVal) (st : Nat) (b : JDict) (tx : String)
        (rest : List HttpResponse) (e : Int),
      s.client.tokens = some (some d0) → jget d0 "refresh_token" = some rt →
      s.script = ⟨st, b, tx⟩ :: rest → st < 400 →
      jget b "expires_in" = some (JVal.jnum e) →
      ∀ (d : JDict) (s2 : St), refreshToken s = (Except.ok d, s2) →
        jget d "expires_at" = some (JVal.jnum (s.client.now + e)) ∧
        s2.client.tokens = some (some d) ∧
        s2.client.file = some (dumpJDict d)) ∧
    (∀ (b : JDict) (v : JVal), jget (setKey b "expires_at" v) "expires_at" = some v) := by
  refine ⟨?_, ?_, ?_⟩
  · intro s st b tx rest e hs hst he d s2 hauth
    rw [authenticate_success s st b tx rest e hs hst he] at hauth
    obtain ⟨hd, hs2⟩ := Prod.mk.injEq .. ▸ hauth
    cases hd
    subst hs2
    exact ⟨jget_setKey_self b "expires_at" (JVal.jnum (s.client.now + e)), rfl, rfl⟩
  · intro s d0 rt st b tx rest e htk hrt hs hst he d s2 href
    rw [refreshToken_success s d0 rt st b tx rest e htk hrt hs hst he] at href
    obtain ⟨hd, hs2⟩ := Prod.mk.injEq .. ▸ href
    cases hd
    subst hs2
    exact ⟨jget_setKey_self b "expires_at" (JVal.jnum (s.client.now + e)), rfl, rfl⟩
  · intro b v
    exact jget_setKey_self b "expires_at" v

/-- Witness for C6 at concrete inputs: the grant at clock 1000 with
`expires_in = 600` stores `expires_at = 1600` and persists the dump (both
paths); a wire body carrying its own `expires_at = 999` has it
overwritten by the locally computed value 42. -/
theorem expires_at_recomputed_and_saved_witness :
    (jget (storedToken "A1" "R1" 600 1600) "expires_at" = some (JVal.jnum 1600) ∧
     authedSt.client.tokens = some (some (storedToken "A1" "R1" 600 1600)) ∧
     authedSt.client.file = some (dumpJDict (storedToken "A1" "R1" 600 1600))) ∧
    (jget (storedToken "A1" "R1" 600 1600) "expires_at" = some (JVal.jnum 1600) ∧
     refreshedSt.client.tokens = some (some (storedToken "A1" "R1" 600 1600)) ∧
     refreshedSt.client.file = some (dumpJDict (storedToken "A1" "R1" 600 1600))) ∧
    jget (setKey (storedToken "X" "Y" 1 999) "expires_at" (JVal.jnum 42)) "expires_at"
      = some (JVal.jnum 42) :=
  ⟨expires_at_recomputed_and_saved.1 (sampleSt (some none) none grantScript) 200
      (wireToken "A1" "R1" 600) "ok" [] 600 rfl (by omega) (by decide)
      (storedToken "A1" "R1" 600 1600) authedSt (by decide),
   expires_at_recomputed_and_saved.2.1 (sampleSt (some (some liveToken)) none grantScript)
      liveToken (JVal.jstr "R0") 200 (wireToken "A1" "R1" 600) "ok" [] 600 rfl
      (by decide) rfl (by omega) (by decide)
      (storedToken "A1" "R1" 600 1600) refreshedSt (by decide),
   expires_at_recomputed_and_saved.2.2 (storedToken "X" "Y" 1 999) (JVal.jnum 42)⟩

/-- Counterexample to C10 as stated: `raise_for_status` only raises for
4xx/5xx, so a non-2xx status below 400 (here 304) from the token endpoint
does NOT make `authenticate` raise — it stores the body as the new token
set and overwrites the persisted file, changing both. -/
theorem auth_non2xx_counterexample :
    (authenticate (sampleSt (some (some liveToken)) none redirScript)).1
      = Except.ok (storedToken "A2" "R2" 600 1600) ∧
    (authenticate (sampleSt (some (some liveToken)) none redirScript)).2.client.tokens
      = some (some (storedToken "A2" "R2" 600 1600)) ∧
    (sampleSt (some (some liveToken)) none redirScript).client.tokens
      ≠ some (some (storedToken "A2" "R2" 600 1600)) ∧
    (authenticate (sampleSt (some (some liveToken)) none redirScript)).2.client.file
      ≠ (sampleSt (some (some liveToken)) none redirScript).client.file := by
  refine ⟨rfl, rfl, by decide, by decide⟩

/-- C10 amended: on a 4xx/5xx token-endpoint response, `authenticate`
raises `HTTPError{status, text}` before assigning the token pair — the
resulting state keeps the client (in-memory tokens and persisted file)
exactly as before, with only the scripted response consumed and the call
logged; likewise for `refresh_token`. -/
theorem auth_atomic_on_http_error :
    (∀ (s : St) (st : Nat) (b : JDict) (tx : String) (rest : List HttpResponse),
      s.script = ⟨st, b, tx⟩ :: rest → 400 ≤ st → st < 600 →
      authenticate s =
        (Except.error (PyErr.httpErr st tx),
         { s with script := rest,
                  log := s.log ++ [Ev.tokenReq (passwordPayload s.client)] })) ∧
    (∀ (s : St) (d0 : JDict) (rt : JVal) (st : Nat) (b : JDict) (tx : String)
        (rest : List HttpResponse),
      s.client.tokens = some (some d0) → jget d0 "refresh_token" = some rt →
      s.script = ⟨st, b, tx⟩ :: rest → 400 ≤ st → st < 600 →
      refreshToken s =
        (Except.error (PyErr.httpErr st tx),
         { s with script := rest,
                  log := s.log ++ [Ev.tokenReq (refreshPayload rt)] })) := by
  constructor
  · intro s st b tx rest hs h4 h6
    obtain ⟨⟨au, un, pw, nw, tk, fl⟩, scr, lg⟩ := s
    simp only at hs
    subst hs
    simp [authenticate, sendEv, raiseForStatus, show 400 ≤ st ∧ st < 600 from ⟨h4, h6⟩]
  · intro s d0 rt st b tx rest htk hrt hs h4 h6
    obtain ⟨⟨au, un, pw, nw, tk, fl⟩, scr, lg⟩ := s
    simp only at hs htk
    subst hs
    subst htk
    simp [refreshToken, sendEv, raiseForStatus, hrt, jget_some_ne_nil hrt,
          show 400 ≤ st ∧ st < 600 from ⟨h4, h6⟩]

/-- Witness for the amended C10 at a concrete 401 from the token endpoint:
both operations fail with `HTTPError 401` and leave tokens and file
untouched. -/
theorem auth_atomic_on_http_error_witness :
    authenticate (sampleSt (some (some liveToken)) none [⟨401, [], "unauthorized"⟩])
      = (Except.error (PyErr.httpErr 401 "unauthorized"),
         { sampleSt (some (some liveToken)) none [⟨401, [], "unauthorized"⟩] with
             script := [],
             log := [Ev.tokenReq (passwordPayload (sampleClient (some (some liveToken)) none))] }) ∧
    refreshToken (sampleSt (some (some liveToken)) none [⟨401, [], "unauthorized"⟩])
      = (Except.error (PyErr.httpErr 401 "unauthorized"),
         { sampleSt (some (some liveToken)) none [⟨401, [], "unauthorized"⟩] with
             script := [],
             log := [Ev.tokenReq (refreshPayload (JVal.jstr "R0"))] }) :=
  ⟨auth_atomic_on_http_error.1 (sampleSt (some (some liveToken)) none [⟨401, [], "unauthorized"⟩])
      401 [] "unauthorized" [] rfl (by omega) (by omega),
   auth_atomic_on_http_error.2 (sampleSt (some (some liveToken)) none [⟨401, [], "unauthorized"⟩])
      liveToken (JVal.jstr "R0") 401 [] "unauthorized" [] rfl (by decide) rfl
      (by omega) (by omega)⟩

/-- Counterexample to C1 as stated.  First: after a 401 and a successful
refresh, a retried status of 304 — non-2xx — does not fail with an
`ApiError`; `raise_for_status` accepts it and `get` returns its JSON body.
Second: when the refresh response grants `expires_in = 0`, the retry's
header computation finds the token already expired and performs a SECOND
refresh, so the log holds two token requests, not exactly one. -/
theorem single_retry_counterexample :
    (getOp "x" none (sampleSt (some (some liveToken)) none retry304Script)).1
      = Except.ok samplePayload ∧
    (getOp "x" none (sampleSt (some (some liveToken)) none doubleRefreshScript)).2.log
      = [Ev.resGet "https://api.invertironline.com/x" "Bearer A0" none,
         Ev.tokenReq (refreshPayload (JVal.jstr "R0")),
         Ev.tokenReq (refreshPayload (JVal.jstr "R2")),
         Ev.resGet "https://api.invertironline.com/x" "Bearer A3" none] := by
  refine ⟨rfl, rfl⟩

/-- C1 amended: starting from a valid, unexpired token set, when the first
response is 401 and the refresh grant carries `expires_in > 0`, `get` and
`post` perform exactly one refresh and exactly one retry carrying the new
access token (the final log and state are exactly `retriedSt`); a retried
4xx/5xx status fails with `HTTPError{status, body}` after that single
round, and a retried status below 400 returns the JSON body. -/
theorem single_refresh_single_retry :
    ∀ (base ep un pw : String) (p : Option JDict) (n : Int) (lg : List Ev)
      (fl : Option String) (d0 : JDict) (ea0 : Int) (a0 rt0 : JVal)
      (b1 : JDict) (t1 : String) (rst : Nat) (rb : JDict) (rtx : String)
      (e2 : Int) (a2 : JVal) (st2 : Nat) (b2 : JDict) (t2 : String)
      (rest : List HttpResponse),
      jget d0 "expires_at" = some (JVal.jnum ea0) → n < ea0 →
      jget d0 "access_token" = some a0 → jget d0 "refresh_token" = some rt0 →
      rst < 400 → jget rb "expires_in" = some (JVal.jnum e2) → 0 < e2 →
      jget rb "access_token" = some a2 →
      (400 ≤ st2 → st2 < 600 →
        getOp ep p { client := ⟨base, un, pw, n, some (some d0), fl⟩,
                     script := ⟨401, b1, t1⟩ :: ⟨rst, rb, rtx⟩ :: ⟨st2, b2, t2⟩ :: rest,
                     log := lg }
          = (Except.error (PyErr.httpErr st2 t2),
             retriedSt base un pw n fl lg rb e2 rest rt0
               (Ev.resGet (buildUrl base ep) ("Bearer " ++ renderJVal a0) p)
               (Ev.resGet (buildUrl base ep) ("Bearer " ++ renderJVal a2) p))) ∧
      (st2 < 400 →
        getOp ep p { client := ⟨base, un, pw, n, some (some d0), fl⟩,
                     script := ⟨401, b1, t1⟩ :: ⟨rst, rb, rtx⟩ :: ⟨st2, b2, t2⟩ :: rest,
                     log := lg }
          = (Except.ok b2,
             retriedSt base un pw n fl lg rb e2 rest rt0
               (Ev.resGet (buildUrl base ep) ("Bearer " ++ renderJVal a0) p)
               (Ev.resGet (buildUrl base ep) ("Bearer " ++ renderJVal a2) p))) ∧
      (400 ≤ st2 → st2 < 600 →
        postOp ep p { client := ⟨base, un, pw, n, some (some d0), fl⟩,
                      script := ⟨401, b1, t1⟩ :: ⟨rst, rb, rtx⟩ :: ⟨st2, b2, t2⟩ :: rest,
                      log := lg }
          = (Except.error (PyErr.httpErr st2 t2),
             retriedSt base un pw n fl lg rb e2 rest rt0
               (Ev.resPost (buildUrl base ep) ("Bearer " ++ renderJVal a0) p)
               (Ev.resPost (buildUrl base ep) ("Bearer " ++ renderJVal a2) p))) ∧
      (st2 < 400 →
        postOp ep p { client := ⟨base, un, pw, n, some (some d0), fl⟩,
                      script := ⟨401, b1, t1⟩ :: ⟨rst, rb, rtx⟩ :: ⟨st2, b2, t2⟩ :: rest,
                      log := lg }
          = (Except.ok b2,
             retriedSt base un pw n fl lg rb e2 rest rt0
               (Ev.resPost (buildUrl base ep) ("Bearer " ++ renderJVal a0) p)
               (Ev.resPost (buildUrl base ep) ("Bearer " ++ renderJVal a2) p))) := by
  intro base ep un pw p n lg fl d0 ea0 a0 rt0 b1 t1 rst rb rtx e2 a2 st2 b2 t2 rest
  intro hea0 hlt ha0 hrt0 hrst he2 hpos ha2
  have hd0ne : d0 ≠ [] := jget_some_ne_nil hea0
  have hrb2at := jget_setKey_self rb "expires_at" (JVal.jnum (n + e2))
  have hrb2acc : jget (setKey rb "expires_at" (JVal.jnum (n + e2))) "access_token" = some a2 := by
    rw [jget_setKey_ne rb "expires_at" "access_token" (JVal.jnum (n + e2)) (by decide)]
    exact ha2
  refine ⟨?_, ?_, ?_, ?_⟩ <;>
    [skip; skip; skip; skip] <;>
    first
    | (intro h4 h6
       simp [getOp, postOp, authHeaders, getAccessToken, tokenExpired, subscriptTokens,
             sendEv, refreshToken, storeTokenResponse, guardarTokens, raiseForStatus,
             retriedSt, hea0, ha0, hrt0, he2, ha2, hd0ne, hrb2at, hrb2acc,
             setKey_ne_nil,
             show ¬(n ≥ ea0) from by omega,
             show ¬(n ≥ n + e2) from by omega,
             show ¬(400 ≤ rst ∧ rst < 600) from by omega,
             show 400 ≤ st2 ∧ st2 < 600 from ⟨h4, h6⟩])
    | (intro h4
       simp [getOp, postOp, authHeaders, getAccessToken, tokenExpired, subscriptTokens,
             sendEv, refreshToken, storeTokenResponse, guardarTokens, raiseForStatus,
             retriedSt, hea0, ha0, hrt0, he2, ha2, hd0ne, hrb2at, hrb2acc,
             setKey_ne_nil,
             show ¬(n ≥ ea0) from by omega,
             show ¬(n ≥ n + e2) from by omega,
             show ¬(400 ≤ rst ∧ rst < 600) from by omega,
             show ¬(400 ≤ st2 ∧ st2 < 600) from by omega])

/-- Witness for the amended C1 at concrete inputs: from `liveToken`, a 401
then a 500 on retry yields `HTTPError 500` for `get` after one refresh and
one retry; a 401 then a 200 on retry yields the payload for `post`. -/
theorem single_refresh_single_retry_witness :
    getOp "x" none
      { client := ⟨"B", "user", "pass", 1000, some (some liveToken), none⟩,
        script := [⟨401, [], "u"⟩, ⟨200, wireToken "A2" "R2" 600, "ok"⟩, ⟨500, [], "boom"⟩],
        log := [] }
      = (Except.error (PyErr.httpErr 500 "boom"),
         retriedSt "B" "user" "pass" 1000 none [] (wireToken "A2" "R2" 600) 600 []
           (JVal.jstr "R0")
           (Ev.resGet (buildUrl "B" "x") ("Bearer " ++ renderJVal (JVal.jstr "A0")) none)
           (Ev.resGet (buildUrl "B" "x") ("Bearer " ++ renderJVal (JVal.jstr "A2")) none)) ∧
    postOp "x" none
      { client := ⟨"B", "user", "pass", 1000, some (some liveToken), none⟩,
        script := [⟨401, [], "u"⟩, ⟨200, wireToken "A2" "R2" 600, "ok"⟩,
                   ⟨200, samplePayload, "ok"⟩],
        log := [] }
      = (Except.ok samplePayload,
         retriedSt "B" "user" "pass" 1000 none [] (wireToken "A2" "R2" 600) 600 []
           (JVal.jstr "R0")
           (Ev.resPost (buildUrl "B" "x") ("Bearer " ++ renderJVal (JVal.jstr "A0")) none)
           (Ev.resPost (buildUrl "B" "x") ("Bearer " ++ renderJVal (JVal.jstr "A2")) none)) :=
  ⟨(single_refresh_single_retry "B" "x" "user" "pass" none 1000 [] none liveToken 2000
      (JVal.jstr "A0") (JVal.jstr "R0") [] "u" 200 (wireToken "A2" "R2" 600) "ok" 600
      (JVal.jstr "A2") 500 [] "boom" [] (by decide) (by decide) (by decide) (by decide)
      (by omega) (by decide) (by omega) (by decide)).1 (by omega) (by omega),
   (single_refresh_single_retry "B" "x" "user" "pass" none 1000 [] none liveToken 2000
      (JVal.jstr "A0") (JVal.jstr "R0") [] "u" 200 (wireToken "A2" "R2" 600) "ok" 600
      (JVal.jstr "A2") 200 samplePayload "ok" [] (by decide) (by decide) (by decide)
      (by decide) (by omega) (by decide) (by omega) (by decide)).2.2.2 (by omega)⟩

theorem mk_data (s : String) : String.mk s.data = s := by
  cases s
  rfl

theorem data_quote : ("\"" : String).data = ['"'] := rfl

theorem data_key_sep : ("\": " : String).data = ['"', ':', ' '] := rfl

theorem data_entry_sep : (",\n  " : String).data = [',', '\n', ' ', ' '] := rfl

theorem data_obj_close : ("\n\x7d" : String).data = ['\n', rbrace] := rfl

theorem data_obj_open : ("\x7b\n  " : String).data = [lbrace, '\n', ' ', ' '] := rfl

theorem data_minus : ("-" : String).data = ['-'] := rfl

theorem rbrace_val : rbrace = '\x7d' := rfl

theorem lbrace_val : lbrace = '\x7b' := rfl

theorem goodChar_ne_quote {c : Char} (h : goodChar c = true) : ¬(c = '"') := by
  intro hc
  subst hc
  exact absurd h (by decide)

theorem parseStrAux_append (l rest : List Char) (h : ∀ c ∈ l, ¬(c = '"')) :
    parseStrAux (l ++ '"' :: rest) = some (l, rest) := by
  induction l with
  | nil => simp [parseStrAux]
  | cons c t ih =>
    have hc : ¬(c = '"') := h c (List.mem_cons_self c t)
    simp [parseStrAux, hc, ih (fun x hx => h x (List.mem_cons_of_mem c hx))]

theorem dchar_facts {d : Nat} (h : d < 10) :
    (Char.ofNat (48 + d)).isDigit = true ∧ (Char.ofNat (48 + d)).toNat = 48 + d ∧
    ¬(Char.ofNat (48 + d) = '"') ∧ ¬(Char.ofNat (48 + d) = '-') ∧
    isWs (Char.ofNat (48 + d)) = false := by
  interval_cases d <;> exact (by decide)

theorem natCharsAux_cons (fuel n : Nat) :
    ∃ m t, m < 10 ∧ natCharsAux (fuel + 1) n = Char.ofNat (48 + m) :: t := by
  induction fuel generalizing n with
  | zero =>
    by_cases h : n < 10
    · exact ⟨n, [], h, by simp [natCharsAux, h]⟩
    · exact ⟨n % 10, [], Nat.mod_lt n (by omega), by simp [natCharsAux, h]⟩
  | succ f ih =>
    by_cases h : n < 10
    · exact ⟨n, [], h, by simp [natCharsAux, h]⟩
    · obtain ⟨m, t, hm, heq⟩ := ih (n / 10)
      refine ⟨m, t ++ [Char.ofNat (48 + n % 10)], hm, ?_⟩
      conv_lhs => rw [natCharsAux]
      rw [if_neg h, heq]
      simp

theorem parseNatAux_natCharsAux (fuel : Nat) :
    ∀ (n acc : Nat) (rest : List Char), n < fuel →
      parseNatAux (natCharsAux fuel n ++ rest) acc
        = parseNatAux rest (acc * pow10Aux fuel n + n) := by
  induction fuel with
  | zero => intro n acc rest h; omega
  | succ f ih =>
    intro n acc rest h
    by_cases h10 : n < 10
    · obtain ⟨hdig, htn, _, _, _⟩ := dchar_facts h10
      simp [natCharsAux, h10, pow10Aux, parseNatAux, hdig, htn]
    · have hdiv : n / 10 < f := by
        have h1 : n / 10 < n := Nat.div_lt_self (by omega) (by omega)
        omega
      have hm : n % 10 < 10 := Nat.mod_lt n (by omega)
      obtain ⟨hdig, htn, _, _, _⟩ := dchar_facts hm
      simp only [natCharsAux, if_neg h10, pow10Aux, List.append_assoc, List.cons_append,
                 List.nil_append]
      rw [ih (n / 10) acc (Char.ofNat (48 + n % 10) :: rest) hdiv]
      have hstep : parseNatAux (Char.ofNat (48 + n % 10) :: rest)
          (acc * pow10Aux f (n / 10) + n / 10)
          = parseNatAux rest ((acc * pow10Aux f (n / 10) + n / 10) * 10 + n % 10) := by
        simp [parseNatAux, hdig, htn]
      rw [hstep, ← Nat.mul_assoc]
      congr 1
      omega

theorem parseNatAux_stop (acc : Nat) (rest : List Char) (h : headNotDigit rest = true) :
    parseNatAux rest acc = (acc, rest) := by
  cases rest with
  | nil => simp [parseNatAux]
  | cons c r =>
    simp [headNotDigit] at h
    simp [parseNatAux, h]

theorem parseNat_natChars (n : Nat) (rest : List Char) (hr : headNotDigit rest = true) :
    parseNatAux (natChars n ++ rest) 0 = (n, rest) := by
  rw [natChars, parseNatAux_natCharsAux (n + 1) n 0 rest (by omega)]
  simp [parseNatAux_stop n rest hr]

theorem parseJVal_dump (v : JVal) (rest : List Char) (hg : goodVal v = true)
    (hr : headNotDigit rest = true) :
    parseJVal ((dumpJVal v).data ++ rest) = some (v, rest) := by
  cases v with
  | jstr s =>
    have hq : ∀ c ∈ s.data, ¬(c = '"') := by
      intro c hc
      refine goodChar_ne_quote ?_
      simp [goodVal, goodStr, List.all_eq_true] at hg
      exact hg c hc
    have hdata : (dumpJVal (JVal.jstr s)).data ++ rest = '"' :: (s.data ++ '"' :: rest) := by
      simp [dumpJVal, String.data_append, data_quote]
    rw [hdata]
    simp [parseJVal, parseStrAux_append s.data rest hq, mk_data]
  | jnum n =>
    cases n with
    | ofNat m =>
      obtain ⟨k, t, hk, he⟩ := natCharsAux_cons m m
      obtain ⟨hdig, _, hnq, hnm, _⟩ := dchar_facts hk
      have hdata : (dumpJVal (JVal.jnum (Int.ofNat m))).data ++ rest
          = Char.ofNat (48 + k) :: (t ++ rest) := by
        simp [dumpJVal, intStr, natChars, he]
      have hlist : Char.ofNat (48 + k) :: (t ++ rest) = natChars m ++ rest := by
        simp [natChars, he]
      rw [hdata]
      simp only [parseJVal, if_neg hnq, if_neg hnm, hdig, if_pos, hlist,
                 parseNat_natChars m rest hr]
      rfl
    | negSucc m =>
      obtain ⟨k, t, hk, he⟩ := natCharsAux_cons (m + 1) (m + 1)
      obtain ⟨hdig, _, _, _, _⟩ := dchar_facts hk
      have hdata : (dumpJVal (JVal.jnum (Int.negSucc m))).data ++ rest
          = '-' :: (natChars (m + 1) ++ rest) := by
        simp [dumpJVal, intStr, String.data_append, data_minus, natChars]
      rw [hdata]
      have hcons : natChars (m + 1) ++ rest = Char.ofNat (48 + k) :: (t ++ rest) := by
        simp [natChars, he]
      simp only [parseJVal, if_neg (show ¬(('-' : Char) = '"') from by decide), if_pos,
                 hcons, hdig]
      rw [← hcons, parseNat_natChars (m + 1) rest hr]
      simp [Int.negSucc_eq]

theorem skipWs_cons_of_not (c : Char) (l : List Char) (h : isWs c = false) :
    skipWs (c :: l) = c :: l := by
  simp [skipWs, List.dropWhile, h]

theorem skipWs_cons_of_ws (c : Char) (l : List Char) (h : isWs c = true) :
    skipWs (c :: l) = skipWs l := by
  simp [skipWs, List.dropWhile, h]

theorem skipWs_dumpJVal (v : JVal) (x : List Char) :
    skipWs ((dumpJVal v).data ++ x) = (dumpJVal v).data ++ x := by
  cases v with
  | jstr s =>
    have hdata : (dumpJVal (JVal.jstr s)).data = '"' :: (s.data ++ ['"']) := by
      simp [dumpJVal, String.data_append, data_quote]
    rw [hdata]
    exact skipWs_cons_of_not _ _ (by decide)
  | jnum n =>
    cases n with
    | ofNat m =>
      obtain ⟨k, t, hk, he⟩ := natCharsAux_cons m m
      obtain ⟨_, _, _, _, hws⟩ := dchar_facts hk
      have hdata : (dumpJVal (JVal.jnum (Int.ofNat m))).data = Char.ofNat (48 + k) :: t := by
        simp [dumpJVal, intStr, natChars, he]
      rw [hdata]
      exact skipWs_cons_of_not _ _ hws
    | negSucc m =>
      have hdata : (dumpJVal (JVal.jnum (Int.negSucc m))).data
          = '-' :: natChars (m + 1) := by
        simp [dumpJVal, intStr, String.data_append, data_minus]
      rw [hdata]
      exact skipWs_cons_of_not _ _ (by decide)

theorem dumpEntries_single_data (k : String) (v : JVal) :
    (dumpEntries [(k, v)]).data
      = '"' :: (k.data ++ '"' :: ':' :: ' ' :: ((dumpJVal v).data ++ ['\n', rbrace])) := by
  simp [dumpEntries, String.data_append, data_quote, data_key_sep, data_obj_close, rbrace_val]

theorem dumpEntries_cons_data (k : String) (v : JVal) (kv2 : String × JVal) (tl2 : JDict) :
    (dumpEntries ((k, v) :: kv2 :: tl2)).data
      = '"' :: (k.data ++ '"' :: ':' :: ' ' ::
          ((dumpJVal v).data ++ ',' :: '\n' :: ' ' :: ' ' ::
            (dumpEntries (kv2 :: tl2)).data)) := by
  conv_lhs => rw [dumpEntries]
  simp [String.data_append, data_quote, data_key_sep, data_entry_sep]

theorem skipWs_dumpEntries (k : String) (v : JVal) (tl : JDict) :
    skipWs (dumpEntries ((k, v) :: tl)).data = (dumpEntries ((k, v) :: tl)).data := by
  cases tl with
  | nil =>
    rw [dumpEntries_single_data]
    exact skipWs_cons_of_not _ _ (by decide)
  | cons kv2 tl2 =>
    rw [dumpEntries_cons_data]
    exact skipWs_cons_of_not _ _ (by decide)

theorem length_le_dumpEntries (d : JDict) : d.length ≤ (dumpEntries d).data.length := by
  induction d with
  | nil => simp
  | cons kv tl ih =>
    obtain ⟨k, v⟩ := kv
    cases tl with
    | nil =>
      rw [dumpEntries_single_data]
      simp
    | cons kv2 tl2 =>
      rw [dumpEntries_cons_data]
      simp only [List.length_cons, List.length_append]
      simp only [List.length_cons] at ih
      omega

theorem parseEntriesAux_dump (d : JDict) :
    ∀ fuel : Nat, goodDict d = true → d ≠ [] → d.length ≤ fuel →
      parseEntriesAux fuel (dumpEntries d).data = some (d, []) := by
  induction d with
  | nil => intro fuel _ hne _; exact absurd rfl hne
  | cons kv tl ih =>
    intro fuel hgood _ hlen
    obtain ⟨k, v⟩ := kv
    obtain ⟨f, rfl⟩ : ∃ f, fuel = f + 1 := by
      refine ⟨fuel - 1, ?_⟩
      simp only [List.length_cons] at hlen
      omega
    simp only [goodDict, List.all_cons, Bool.and_eq_true] at hgood
    obtain ⟨⟨hgk, hgv⟩, hgtl⟩ := hgood
    have hq : ∀ c ∈ k.data, ¬(c = '"') := by
      intro c hc
      refine goodChar_ne_quote ?_
      simp only [goodStr, List.all_eq_true] at hgk
      exact hgk c hc
    cases tl with
    | nil =>
      rw [dumpEntries_single_data]
      simp only [parseEntriesAux]
      simp [parseStrAux_append k.data (':' :: ' ' :: ((dumpJVal v).data ++ ['\n', '\x7d'])) hq,
            skipWs_cons_of_not, skipWs_cons_of_ws, skipWs_dumpJVal,
            parseJVal_dump v ['\n', '\x7d'] hgv (by decide),
            isWs, mk_data, rbrace_val]
    | cons kv2 tl2 =>
      obtain ⟨k2, v2⟩ := kv2
      rw [dumpEntries_cons_data]
      simp only [parseEntriesAux]
      have htl : parseEntriesAux f (dumpEntries ((k2, v2) :: tl2)).data
          = some ((k2, v2) :: tl2, []) := by
        refine ih f (by simpa [goodDict] using hgtl) (by simp) ?_
        simp only [List.length_cons] at hlen ⊢
        omega
      simp [parseStrAux_append k.data
              (':' :: ' ' :: ((dumpJVal v).data ++ ',' :: '\n' :: ' ' :: ' ' ::
                (dumpEntries ((k2, v2) :: tl2)).data)) hq,
            skipWs_cons_of_not, skipWs_cons_of_ws, skipWs_dumpJVal, skipWs_dumpEntries,
            parseJVal_dump v
              (',' :: '\n' :: ' ' :: ' ' :: (dumpEntries ((k2, v2) :: tl2)).data) hgv
              (by simp [headNotDigit]),
            htl, isWs, mk_data, rbrace_val]

theorem parseJson_dumpJDict (d : JDict) (hg : goodDict d = true) :
    parseJson (dumpJDict d) = some d := by
  cases d with
  | nil => decide
  | cons kv tl =>
    obtain ⟨k, v⟩ := kv
    have hdata : (dumpJDict ((k, v) :: tl)).data
        = lbrace :: '\n' :: ' ' :: ' ' :: (dumpEntries ((k, v) :: tl)).data := by
      conv_lhs => rw [dumpJDict]
      simp [String.data_append, data_obj_open, lbrace_val]
    obtain ⟨t, ht⟩ : ∃ t, (dumpEntries ((k, v) :: tl)).data = '"' :: t := by
      cases tl with
      | nil => exact ⟨_, dumpEntries_single_data k v⟩
      | cons kv2 tl2 =>
        obtain ⟨k2, v2⟩ := kv2
        exact ⟨_, dumpEntries_cons_data k v (k2, v2) tl2⟩
    have hparse := parseEntriesAux_dump ((k, v) :: tl)
      ((dumpEntries ((k, v) :: tl)).data.length) hg (List.cons_ne_nil _ _)
      (length_le_dumpEntries _)
    rw [ht] at hparse
    simp only [List.length_cons] at hparse
    simp [parseJson, hdata, ht, hparse, skipWs_cons_of_not, skipWs_cons_of_ws, isWs,
          lbrace_val, rbrace_val, skipWs]

/-- C9: Token Store round trip.  Serializing any fully populated (hence
non-empty) token dict whose strings are plain (escape-free under
`json.dump`) and parsing it back yields an equal dict; concretely, after
`_guardar_tokens` writes the file, `_cargar_tokens` returns exactly the
in-memory token set, every field (including the derived `expires_at`)
preserved. -/
theorem save_load_roundtrip :
    ∀ d : JDict, goodDict d = true → d ≠ [] →
      parseJson (dumpJDict d) = some d ∧
      ∀ s : St, s.client.tokens = some (some d) →
        (guardarTokens s).2.client.file = some (dumpJDict d) ∧
        loadTokens ((guardarTokens s).2.client.file) = Except.ok (some d) := by
  intro d hg hne
  refine ⟨parseJson_dumpJDict d hg, ?_⟩
  intro s htk
  obtain ⟨⟨au, un, pw, nw, tk, fl⟩, scr, lg⟩ := s
  simp only at htk
  subst htk
  simp [guardarTokens, hne, loadTokens, parseJson_dumpJDict d hg]

/-- Witness for C9 at the concrete stored token set `liveToken`. -/
theorem save_load_roundtrip_witness :
    parseJson (dumpJDict liveToken) = some liveToken ∧
    (guardarTokens (sampleSt (some (some liveToken)) none [])).2.client.file
        = some (dumpJDict liveToken) ∧
    loadTokens ((guardarTokens (sampleSt (some (some liveToken)) none [])).2.client.file)
        = Except.ok (some liveToken) :=
  ⟨(save_load_roundtrip liveToken (by decide) (by decide)).1,
   (save_load_roundtrip liveToken (by decide) (by decide)).2
     (sampleSt (some (some liveToken)) none []) rfl⟩

end IOL
